import Mathlib

/-!
Verification of the FCHL-predictor core pipeline: a shallow embedding of
`data_loader.py` (roster-name parsing, schedule derivation, player lookup)
and `projections.py` (skater/goalie projections, standings aggregation),
with theorems settling the specification's claims about them.

Python floats are modelled by `ℚ` (every quantity the spec mentions is an
exact ratio), Python dicts by association lists (`List (String × α)`,
first-key lookup) or, for the schedule tallies, by total functions with a
zero default mirroring the get-or-insert-default idiom. Strings are ASCII;
Python's whitespace/digit classes are modelled by Lean's ASCII ones.
-/

namespace FCHL

/-! ## Roster name parsing (`data_loader.parse_player_name`) -/

/-- Helper for `pySplit`: scan characters, `acc` holds the current token
reversed. -/
def splitWsAux : List Char → List Char → List String
  | [], acc => if acc = [] then [] else [String.mk acc.reverse]
  | c :: cs, acc =>
    if c.isWhitespace then
      if acc = [] then splitWsAux cs []
      else String.mk acc.reverse :: splitWsAux cs []
    else splitWsAux cs (c :: acc)

/-- Python `str.split()` with no argument: split on whitespace runs,
dropping empty fragments. -/
def pySplit (s : String) : List String := splitWsAux s.data []

/-- Python `str.strip()`: remove leading and trailing whitespace. -/
def pyStrip (s : String) : String :=
  String.mk (((s.data.dropWhile Char.isWhitespace).reverse.dropWhile Char.isWhitespace).reverse)

/-- Python `" ".join(l)`. -/
def joinSpace : List String → String
  | [] => ""
  | [s] => s
  | s :: rest => s ++ " " ++ joinSpace rest

/-- Python `str.isdigit()` restricted to ASCII digits: nonempty and all
characters are digits. -/
def pyIsDigit (s : String) : Bool :=
  s ≠ "" && s.data.all Char.isDigit

/-- The suffix test of `parse_player_name`: a bare number or a single
uppercase letter (`suffix.isdigit() or (len == 1 and isalpha and isupper)`). -/
def isSuffixToken (s : String) : Bool :=
  pyIsDigit s || (s.length = 1 && s.data.all Char.isAlpha && s.data.all Char.isUpper)

/-- `data_loader.parse_player_name`: `'F Artemi Panarin 3' → ('F', 'Artemi Panarin')`.
Strips the leading position token and a trailing suffix (number or single
uppercase letter), keeping the suffix when stripping it would leave no name. -/
def parse_player_name (raw : String) : String × String :=
  if (pySplit (pyStrip raw)).length < 2 then
    ("", raw)
  else
    ((pySplit (pyStrip raw)).headD "",
     joinSpace
       (if isSuffixToken ((pySplit (pyStrip raw)).getLastD "")
           && (pySplit (pyStrip raw)).length > 2 then
          ((pySplit (pyStrip raw)).drop 1).dropLast
        else (pySplit (pyStrip raw)).drop 1))

/-- `data_loader.NHL_TEAM_MAP`: full team name → abbreviation. -/
def NHL_TEAM_MAP : List (String × String) :=
  [("Anaheim Ducks", "ANA"), ("Boston Bruins", "BOS"), ("Buffalo Sabres", "BUF"),
   ("Calgary Flames", "CGY"), ("Carolina Hurricanes", "CAR"), ("Chicago Blackhawks", "CHI"),
   ("Colorado Avalanche", "COL"), ("Columbus Blue Jackets", "CBJ"), ("Dallas Stars", "DAL"),
   ("Detroit Red Wings", "DET"), ("Edmonton Oilers", "EDM"), ("Florida Panthers", "FLA"),
   ("Los Angeles Kings", "LAK"), ("Minnesota Wild", "MIN"), ("Montreal Canadiens", "MTL"),
   ("Nashville Predators", "NSH"), ("New Jersey Devils", "NJD"), ("New York Islanders", "NYI"),
   ("New York Rangers", "NYR"), ("Ottawa Senators", "OTT"), ("Philadelphia Flyers", "PHI"),
   ("Pittsburgh Penguins", "PIT"), ("San Jose Sharks", "SJS"), ("Seattle Kraken", "SEA"),
   ("St. Louis Blues", "STL"), ("Tampa Bay Lightning", "TBL"), ("Toronto Maple Leafs", "TOR"),
   ("Utah Mammoth", "UTA"), ("Vancouver Canucks", "VAN"), ("Vegas Golden Knights", "VGK"),
   ("Washington Capitals", "WSH"), ("Winnipeg Jets", "WPG")]

/-! ## Data model -/

/-- One roster player (`load_fchl_roster` row): raw string, parsed name and
position, fantasy-team id. -/
structure RosterPlayer where
  raw : String
  name : String
  position : String
  fchl_team : String
deriving DecidableEq

/-- One skater record of `load_skater_stats` (floats as `ℚ`). -/
structure SkaterRecord where
  name : String
  nhl_team : String
  games_played : ℚ
  goals : ℚ
  primary_assists : ℚ
  secondary_assists : ℚ
deriving DecidableEq

/-- One goalie record of `load_goalie_stats`. -/
structure GoalieRecord where
  name : String
  nhl_team : String
  games_played : ℚ
deriving DecidableEq

/-- A schedule-derived per-goalie tally (`{starts, wins, shutouts}`). -/
structure GoalieTally where
  starts : Nat
  wins : Nat
  shutouts : Nat
deriving DecidableEq

/-- The dict returned by `load_schedule`, as consumed by the projections. -/
structure ScheduleData where
  team_completed : List (String × Nat)
  team_remaining : List (String × Nat)
  goalie_schedule_stats : List (String × GoalieTally)

/-- A PlayerProjection dict (`projections.py`). -/
structure PlayerProjection where
  name : String
  position : String
  fchl_team : String
  nhl_team : String
  proj_goals : ℚ
  proj_assists : ℚ
  proj_wins : ℚ
  proj_shutouts : ℚ
  proj_pts : ℚ
  found_in_stats : Bool
deriving DecidableEq

/-- A TeamStanding dict (`compute_standings`). -/
structure TeamStanding where
  fchl_team : String
  current_pts : Int
  proj_remaining : ℚ
  proj_total : ℚ
deriving DecidableEq

/-! ## Scoring weights -/

def GOAL_PTS : ℚ := 1
def ASSIST_PTS : ℚ := 1
def WIN_PTS : ℚ := 2
def SHUTOUT_PTS : ℚ := 3

/-! ## Projections (`projections.py`) -/

/-- The all-zero, unmatched base projection both functions start from. -/
def baseProjection (player : RosterPlayer) : PlayerProjection :=
  { name := player.name, position := player.position, fchl_team := player.fchl_team,
    nhl_team := "", proj_goals := 0, proj_assists := 0, proj_wins := 0,
    proj_shutouts := 0, proj_pts := 0, found_in_stats := false }

/-- `projections.project_skater`. -/
def project_skater (player : RosterPlayer) (stats_key : Option String)
    (skater_stats : List (String × SkaterRecord))
    (team_remaining : List (String × Nat)) : PlayerProjection :=
  match stats_key with
  | none => baseProjection player
  | some k =>
    match List.lookup k skater_stats with
    | none => baseProjection player
    | some s =>
      if s.games_played ≤ 0 then
        { baseProjection player with nhl_team := s.nhl_team, found_in_stats := true }
      else
        { baseProjection player with
          nhl_team := s.nhl_team,
          proj_goals := s.goals / s.games_played
            * ((List.lookup s.nhl_team team_remaining).getD 0 : ℚ),
          proj_assists := (s.primary_assists + s.secondary_assists) / s.games_played
            * ((List.lookup s.nhl_team team_remaining).getD 0 : ℚ),
          proj_pts := (s.goals / s.games_played
              * ((List.lookup s.nhl_team team_remaining).getD 0 : ℚ)) * GOAL_PTS
            + ((s.primary_assists + s.secondary_assists) / s.games_played
              * ((List.lookup s.nhl_team team_remaining).getD 0 : ℚ)) * ASSIST_PTS,
          found_in_stats := true }

/-- The schedule-tally lookup of `project_goalie`: try the matched statistics
key first, fall back to the raw roster name, default to an empty tally
(`goalie_schedule_stats.get(stats_key) or goalie_schedule_stats.get(player["name"], {})`). -/
def schedTallyFor (goalie_schedule_stats : List (String × GoalieTally))
    (stats_key roster_name : String) : GoalieTally :=
  match List.lookup stats_key goalie_schedule_stats with
  | some t => t
  | none => (List.lookup roster_name goalie_schedule_stats).getD ⟨0, 0, 0⟩

/-- `projections.project_goalie`. -/
def project_goalie (player : RosterPlayer) (stats_key : Option String)
    (goalie_stats : List (String × GoalieRecord))
    (goalie_schedule_stats : List (String × GoalieTally))
    (team_completed team_remaining : List (String × Nat)) : PlayerProjection :=
  match stats_key with
  | none => baseProjection player
  | some k =>
    match List.lookup k goalie_stats with
    | none => baseProjection player
    | some g =>
      let sched := schedTallyFor goalie_schedule_stats k player.name
      let team_comp := (List.lookup g.nhl_team team_completed).getD 0
      let team_rem := (List.lookup g.nhl_team team_remaining).getD 0
      if sched.starts = 0 ∨ team_comp = 0 then
        { baseProjection player with nhl_team := g.nhl_team, found_in_stats := true }
      else
        { baseProjection player with
          nhl_team := g.nhl_team,
          proj_wins := ((sched.wins : ℚ) / (sched.starts : ℚ))
            * (((sched.starts : ℚ) / (team_comp : ℚ)) * (team_rem : ℚ)),
          proj_shutouts := ((sched.shutouts : ℚ) / (sched.starts : ℚ))
            * (((sched.starts : ℚ) / (team_comp : ℚ)) * (team_rem : ℚ)),
          proj_pts := (((sched.wins : ℚ) / (sched.starts : ℚ))
              * (((sched.starts : ℚ) / (team_comp : ℚ)) * (team_rem : ℚ))) * WIN_PTS
            + (((sched.shutouts : ℚ) / (sched.starts : ℚ))
              * (((sched.starts : ℚ) / (team_comp : ℚ)) * (team_rem : ℚ))) * SHUTOUT_PTS,
          found_in_stats := true }

/-- Python `player_lookup.get(name)`: `None` both when the key is absent and
when it is stored with value `None`. -/
def statsKeyOf (player_lookup : List (String × Option String)) (name : String) :
    Option String :=
  (List.lookup name player_lookup).join

/-- `projections.project_all_players`: dispatch on position `"G"`. -/
def project_all_players (fchl_roster : List RosterPlayer)
    (player_lookup : List (String × Option String))
    (skater_stats : List (String × SkaterRecord))
    (goalie_stats : List (String × GoalieRecord))
    (schedule_data : ScheduleData) : List PlayerProjection :=
  fchl_roster.map fun player =>
    if player.position = "G" then
      project_goalie player (statsKeyOf player_lookup player.name) goalie_stats
        schedule_data.goalie_schedule_stats schedule_data.team_completed
        schedule_data.team_remaining
    else
      project_skater player (statsKeyOf player_lookup player.name) skater_stats
        schedule_data.team_remaining

/-! ## Basic lemmas about the projection functions -/

theorem project_skater_no_key (p : RosterPlayer) (ss : List (String × SkaterRecord))
    (tr : List (String × Nat)) : project_skater p none ss tr = baseProjection p := rfl

theorem project_skater_missing (p : RosterPlayer) (k : String)
    (ss : List (String × SkaterRecord)) (tr : List (String × Nat))
    (h : List.lookup k ss = none) :
    project_skater p (some k) ss tr = baseProjection p := by
  unfold project_skater
  simp only [h]

theorem project_skater_found (p : RosterPlayer) (k : String) (s : SkaterRecord)
    (ss : List (String × SkaterRecord)) (tr : List (String × Nat))
    (h : List.lookup k ss = some s) :
    (project_skater p (some k) ss tr).found_in_stats = true := by
  unfold project_skater
  simp only [h]
  split <;> rfl

theorem project_skater_name (p : RosterPlayer) (sk : Option String)
    (ss : List (String × SkaterRecord)) (tr : List (String × Nat)) :
    (project_skater p sk ss tr).name = p.name := by
  unfold project_skater
  rcases sk with _ | k
  · rfl
  · rcases h : List.lookup k ss with _ | s
    · simp only [h]; rfl
    · simp only [h]; split <;> rfl

theorem project_skater_position (p : RosterPlayer) (sk : Option String)
    (ss : List (String × SkaterRecord)) (tr : List (String × Nat)) :
    (project_skater p sk ss tr).position = p.position := by
  unfold project_skater
  rcases sk with _ | k
  · rfl
  · rcases h : List.lookup k ss with _ | s
    · simp only [h]; rfl
    · simp only [h]; split <;> rfl

theorem project_skater_goalie_fields (p : RosterPlayer) (sk : Option String)
    (ss : List (String × SkaterRecord)) (tr : List (String × Nat)) :
    (project_skater p sk ss tr).proj_wins = 0
      ∧ (project_skater p sk ss tr).proj_shutouts = 0 := by
  unfold project_skater
  rcases sk with _ | k
  · exact ⟨rfl, rfl⟩
  · rcases h : List.lookup k ss with _ | s
    · simp only [h]; exact ⟨rfl, rfl⟩
    · simp only [h]; split <;> exact ⟨rfl, rfl⟩

theorem project_goalie_no_key (p : RosterPlayer) (gs : List (String × GoalieRecord))
    (gss : List (String × GoalieTally)) (tc tr : List (String × Nat)) :
    project_goalie p none gs gss tc tr = baseProjection p := rfl

theorem project_goalie_missing (p : RosterPlayer) (k : String)
    (gs : List (String × GoalieRecord)) (gss : List (String × GoalieTally))
    (tc tr : List (String × Nat)) (h : List.lookup k gs = none) :
    project_goalie p (some k) gs gss tc tr = baseProjection p := by
  unfold project_goalie
  simp only [h]

theorem project_goalie_found (p : RosterPlayer) (k : String) (g : GoalieRecord)
    (gs : List (String × GoalieRecord)) (gss : List (String × GoalieTally))
    (tc tr : List (String × Nat)) (h : List.lookup k gs = some g) :
    (project_goalie p (some k) gs gss tc tr).found_in_stats = true := by
  unfold project_goalie
  simp only [h]
  split <;> rfl

theorem project_goalie_name (p : RosterPlayer) (sk : Option String)
    (gs : List (String × GoalieRecord)) (gss : List (String × GoalieTally))
    (tc tr : List (String × Nat)) :
    (project_goalie p sk gs gss tc tr).name = p.name := by
  unfold project_goalie
  rcases sk with _ | k
  · rfl
  · rcases h : List.lookup k gs with _ | g
    · simp only [h]; rfl
    · simp only [h]; split <;> rfl

theorem project_goalie_position (p : RosterPlayer) (sk : Option String)
    (gs : List (String × GoalieRecord)) (gss : List (String × GoalieTally))
    (tc tr : List (String × Nat)) :
    (project_goalie p sk gs gss tc tr).position = p.position := by
  unfold project_goalie
  rcases sk with _ | k
  · rfl
  · rcases h : List.lookup k gs with _ | g
    · simp only [h]; rfl
    · simp only [h]; split <;> rfl

theorem project_goalie_skater_fields (p : RosterPlayer) (sk : Option String)
    (gs : List (String × GoalieRecord)) (gss : List (String × GoalieTally))
    (tc tr : List (String × Nat)) :
    (project_goalie p sk gs gss tc tr).proj_goals = 0
      ∧ (project_goalie p sk gs gss tc tr).proj_assists = 0 := by
  unfold project_goalie
  rcases sk with _ | k
  · exact ⟨rfl, rfl⟩
  · rcases h : List.lookup k gs with _ | g
    · simp only [h]; exact ⟨rfl, rfl⟩
    · simp only [h]; split <;> exact ⟨rfl, rfl⟩

/-! ## Concrete inputs used by witnesses -/

def exSkaterPlayer : RosterPlayer := ⟨"F Test Guy 3", "Test Guy", "F", "BOT"⟩
def exSkater : SkaterRecord := ⟨"Test Guy", "EDM", 20, 10, 5, 3⟩
def exSkaterStats : List (String × SkaterRecord) := [("Test Guy", exSkater)]
def exTeamRemaining : List (String × Nat) := [("EDM", 10)]

def exLookup : List (String × Option String) := [("Test Guy", some "Test Guy")]
def exRosterS : List RosterPlayer := [exSkaterPlayer]
def exScheduleData : ScheduleData := ⟨[], exTeamRemaining, []⟩

def exGoaliePlayer : RosterPlayer := ⟨"G Net Minder", "Net Minder", "G", "GVR"⟩
def exGoalie : GoalieRecord := ⟨"Net Minder", "COL", 24⟩
def exGoalieStats : List (String × GoalieRecord) := [("Net Minder", exGoalie)]
def exGoalieTally : GoalieTally := ⟨20, 12, 2⟩
def exSchedStats : List (String × GoalieTally) := [("Net Minder", exGoalieTally)]
def exTeamCompleted : List (String × Nat) := [("COL", 25)]
def exTeamRemainingG : List (String × Nat) := [("COL", 15)]

/-! ## Guarded-division variants of the projections (error-freedom model)

`checkedDiv` returns `none` exactly when Python `/` would raise
`ZeroDivisionError`; the two checked projections repeat the source
structure with every division routed through it. -/

def checkedDiv (a b : ℚ) : Option ℚ :=
  if b = 0 then none else some (a / b)

/-- `project_skater` with each division checked for a zero denominator. -/
def project_skater_checked (player : RosterPlayer) (stats_key : Option String)
    (skater_stats : List (String × SkaterRecord))
    (team_remaining : List (String × Nat)) : Option PlayerProjection :=
  match stats_key with
  | none => some (baseProjection player)
  | some k =>
    match List.lookup k skater_stats with
    | none => some (baseProjection player)
    | some s =>
      if s.games_played ≤ 0 then
        some { baseProjection player with nhl_team := s.nhl_team, found_in_stats := true }
      else
        match checkedDiv s.goals s.games_played,
            checkedDiv (s.primary_assists + s.secondary_assists) s.games_played with
        | some gpg, some apg =>
          some { baseProjection player with
            nhl_team := s.nhl_team,
            proj_goals := gpg * ((List.lookup s.nhl_team team_remaining).getD 0 : ℚ),
            proj_assists := apg * ((List.lookup s.nhl_team team_remaining).getD 0 : ℚ),
            proj_pts := (gpg * ((List.lookup s.nhl_team team_remaining).getD 0 : ℚ)) * GOAL_PTS
              + (apg * ((List.lookup s.nhl_team team_remaining).getD 0 : ℚ)) * ASSIST_PTS,
            found_in_stats := true }
        | _, _ => none

/-- `project_goalie` with each division checked for a zero denominator. -/
def project_goalie_checked (player : RosterPlayer) (stats_key : Option String)
    (goalie_stats : List (String × GoalieRecord))
    (goalie_schedule_stats : List (String × GoalieTally))
    (team_completed team_remaining : List (String × Nat)) : Option PlayerProjection :=
  match stats_key with
  | none => some (baseProjection player)
  | some k =>
    match List.lookup k goalie_stats with
    | none => some (baseProjection player)
    | some g =>
      let sched := schedTallyFor goalie_schedule_stats k player.name
      let team_comp := (List.lookup g.nhl_team team_completed).getD 0
      let team_rem := (List.lookup g.nhl_team team_remaining).getD 0
      if sched.starts = 0 ∨ team_comp = 0 then
        some { baseProjection player with nhl_team := g.nhl_team, found_in_stats := true }
      else
        match checkedDiv (sched.wins : ℚ) (sched.starts : ℚ),
            checkedDiv (sched.shutouts : ℚ) (sched.starts : ℚ),
            checkedDiv (sched.starts : ℚ) (team_comp : ℚ) with
        | some win_rate, some shutout_rate, some share =>
          some { baseProjection player with
            nhl_team := g.nhl_team,
            proj_wins := win_rate * (share * (team_rem : ℚ)),
            proj_shutouts := shutout_rate * (share * (team_rem : ℚ)),
            proj_pts := (win_rate * (share * (team_rem : ℚ))) * WIN_PTS
              + (shutout_rate * (share * (team_rem : ℚ))) * SHUTOUT_PTS,
            found_in_stats := true }
        | _, _, _ => none

/-! ## Schedule derivation (`data_loader.load_schedule`)

The three tally dicts are modelled as total functions with a zero default:
`_goalie_entry`'s get-or-insert-default and the Python `.get(k, 0) + 1`
updates both mean "read 0 for an absent key, then write back". -/

/-- The mutable state built up while scanning the schedule. -/
structure SchedState where
  team_completed : String → Nat
  team_remaining : String → Nat
  goalie_stats : String → GoalieTally

/-- `d[k] = d.get(k, 0) + 1`. -/
def bumpCount (f : String → Nat) (k : String) : String → Nat :=
  fun x => if x = k then f x + 1 else f x

/-- Increment a team counter when the abbreviation is recognized
(`if visitor_abbr: ...`). -/
def bumpOpt (f : String → Nat) : Option String → (String → Nat)
  | some a => bumpCount f a
  | none => f

/-- `_goalie_entry(name)["starts"] += 1`. -/
def bumpStarts (g : String → GoalieTally) (k : String) : String → GoalieTally :=
  fun x => if x = k then { g x with starts := (g x).starts + 1 } else g x

/-- `_goalie_entry(name)["wins"] += 1`. -/
def bumpWins (g : String → GoalieTally) (k : String) : String → GoalieTally :=
  fun x => if x = k then { g x with wins := (g x).wins + 1 } else g x

/-- `_goalie_entry(name)["shutouts"] += 1`. -/
def bumpShutouts (g : String → GoalieTally) (k : String) : String → GoalieTally :=
  fun x => if x = k then { g x with shutouts := (g x).shutouts + 1 } else g x

/-- Digit run → value; `none` when empty or a non-digit appears. -/
def digitsToNat : List Char → Option Nat
  | [] => none
  | cs =>
    if cs.all Char.isDigit then
      some (cs.foldl (fun n c => n * 10 + (c.toNat - 48)) 0)
    else none

/-- Python `int(s)` on an already-stripped string, `none` for `ValueError`
(ASCII digits with an optional sign). -/
def parseIntPy (s : String) : Option Int :=
  match s.data with
  | [] => none
  | c :: rest =>
    if c = '-' then (digitsToNat rest).map (fun n => -(n : Int))
    else if c = '+' then (digitsToNat rest).map (fun n => (n : Int))
    else (digitsToNat (c :: rest)).map (fun n => (n : Int))

/-- One iteration of `load_schedule`'s row loop. Rows shorter than 8 cells
are skipped; a non-`"Scheduled"` status is treated as completed; goalie
tallies are only recorded when both scores parse as integers. -/
def processRow (st : SchedState) (row : List String) : SchedState :=
  if row.length < 8 then st
  else
    if pyStrip (row.getD 7 "") = "Scheduled" then
      { st with team_remaining :=
          (bumpOpt (bumpOpt st.team_remaining
              (List.lookup (pyStrip (row.getD 3 "")) NHL_TEAM_MAP))
            (List.lookup (pyStrip (row.getD 5 "")) NHL_TEAM_MAP)) }
    else
      let st1 := { st with team_completed :=
          (bumpOpt (bumpOpt st.team_completed
              (List.lookup (pyStrip (row.getD 3 "")) NHL_TEAM_MAP))
            (List.lookup (pyStrip (row.getD 5 "")) NHL_TEAM_MAP)) }
      match parseIntPy (pyStrip (row.getD 4 "")), parseIntPy (pyStrip (row.getD 6 "")) with
      | some v_score, some h_score =>
        let visitor_goalie := pyStrip (row.getD 8 "")
        let home_goalie := pyStrip (row.getD 9 "")
        let gs1 := if visitor_goalie ≠ "" then bumpStarts st1.goalie_stats visitor_goalie
                   else st1.goalie_stats
        let gs2 := if home_goalie ≠ "" then bumpStarts gs1 home_goalie else gs1
        let gs3 :=
          if visitor_goalie ≠ "" ∧ home_goalie ≠ "" then
            if v_score > h_score then bumpWins gs2 visitor_goalie
            else bumpWins gs2 home_goalie
          else gs2
        let gs4 := if home_goalie ≠ "" ∧ v_score = 0 then bumpShutouts gs3 home_goalie else gs3
        let gs5 := if visitor_goalie ≠ "" ∧ h_score = 0 then bumpShutouts gs4 visitor_goalie
                   else gs4
        { st1 with goalie_stats := gs5 }
      | _, _ => st1

/-- `data_loader.load_schedule` over the data rows (the caller has already
consumed the header row). -/
def load_schedule (rows : List (List String)) : SchedState :=
  rows.foldl processRow ⟨fun _ => 0, fun _ => 0, fun _ => ⟨0, 0, 0⟩⟩

/-! ## Lemmas: which bumps touch the `wins` field -/

theorem wins_bumpStarts (g : String → GoalieTally) (k x : String) :
    (bumpStarts g k x).wins = (g x).wins := by
  unfold bumpStarts
  split <;> rfl

theorem wins_bumpShutouts (g : String → GoalieTally) (k x : String) :
    (bumpShutouts g k x).wins = (g x).wins := by
  unfold bumpShutouts
  split <;> rfl

theorem wins_ite_bumpStarts (c : Prop) [Decidable c] (g : String → GoalieTally)
    (k x : String) : ((if c then bumpStarts g k else g) x).wins = (g x).wins := by
  split
  · exact wins_bumpStarts g k x
  · rfl

theorem wins_ite_bumpShutouts (c : Prop) [Decidable c] (g : String → GoalieTally)
    (k x : String) : ((if c then bumpShutouts g k else g) x).wins = (g x).wins := by
  split
  · exact wins_bumpShutouts g k x
  · rfl

theorem wins_bumpWins (g : String → GoalieTally) (k x : String) :
    (bumpWins g k x).wins = (g x).wins + (if x = k then 1 else 0) := by
  unfold bumpWins
  split
  · simp
  · simp

/-! ## Counting the per-team tallies (C5) -/

/-- The abbreviations the schedule tallies can ever be keyed by. -/
def teamAbbrs : List String := NHL_TEAM_MAP.map Prod.snd

/-- The sum over all teams of a per-team tally (entries never written read 0,
so this is the sum of the dict's values). -/
def sumTeams (f : String → Nat) : Nat := (teamAbbrs.map f).sum

/-- The team name maps to an abbreviation. -/
def recognized (name : String) : Bool := (List.lookup name NHL_TEAM_MAP).isSome

/-- How many of the row's two team slots are recognized. -/
def sidesRecognized (row : List String) : Nat :=
  (if recognized (pyStrip (row.getD 3 "")) then 1 else 0)
    + (if recognized (pyStrip (row.getD 5 "")) then 1 else 0)

/-- A row counted as not yet played. -/
def scheduledRow (row : List String) : Bool :=
  decide (8 ≤ row.length) && (pyStrip (row.getD 7 "") == "Scheduled")

/-- A row counted as completed. -/
def completedRow (row : List String) : Bool :=
  decide (8 ≤ row.length) && !(pyStrip (row.getD 7 "") == "Scheduled")

/-- Both team slots recognized (the quantity the spec counts by). -/
def bothRecognized (row : List String) : Bool :=
  recognized (pyStrip (row.getD 3 "")) && recognized (pyStrip (row.getD 5 ""))

theorem teamAbbrs_nodup : teamAbbrs.Nodup := by decide

theorem sum_map_bumpCount (l : List String) (hnd : l.Nodup) (f : String → Nat)
    (k : String) (hk : k ∈ l) :
    (l.map (bumpCount f k)).sum = (l.map f).sum + 1 := by
  induction l with
  | nil => cases hk
  | cons a t ih =>
    rw [List.map_cons, List.map_cons, List.sum_cons, List.sum_cons]
    rcases List.mem_cons.mp hk with rfl | hk'
    · have hknot : k ∉ t := (List.nodup_cons.mp hnd).1
      have ht : t.map (bumpCount f k) = t.map f :=
        List.map_congr_left (fun x hx => by
          unfold bumpCount
          have hxk : x ≠ k := fun he => hknot (he ▸ hx)
          rw [if_neg hxk])
      rw [ht, show bumpCount f k k = f k + 1 from if_pos rfl]
      omega
    · have hne : a ≠ k := fun he => (List.nodup_cons.mp hnd).1 (he ▸ hk')
      rw [show bumpCount f k a = f a from if_neg hne, ih (List.nodup_cons.mp hnd).2 hk']
      omega

theorem lookup_mem_snd {α β : Type} [BEq α] (n : α) (v : β) (m : List (α × β))
    (h : List.lookup n m = some v) : v ∈ m.map Prod.snd := by
  induction m with
  | nil => cases h
  | cons a t ih =>
    simp only [List.lookup] at h
    rw [List.map_cons]
    split at h
    · exact List.mem_cons.mpr (Or.inl (Option.some_inj.mp h).symm)
    · exact List.mem_cons.mpr (Or.inr (ih h))

theorem sumTeams_bumpOpt (f : String → Nat) (n : String) :
    sumTeams (bumpOpt f (List.lookup n NHL_TEAM_MAP))
      = sumTeams f + (if recognized n then 1 else 0) := by
  rcases hl : List.lookup n NHL_TEAM_MAP with _ | v
  · simp [bumpOpt, recognized, hl]
  · have hmem : v ∈ teamAbbrs := lookup_mem_snd n v NHL_TEAM_MAP hl
    show sumTeams (bumpCount f v) = _
    unfold sumTeams
    rw [sum_map_bumpCount teamAbbrs teamAbbrs_nodup f v hmem]
    simp [recognized, hl]

theorem sumTeams_bumpBoth (f : String → Nat) (row : List String) :
    sumTeams (bumpOpt (bumpOpt f (List.lookup (pyStrip (row.getD 3 "")) NHL_TEAM_MAP))
        (List.lookup (pyStrip (row.getD 5 "")) NHL_TEAM_MAP))
      = sumTeams f + sidesRecognized row := by
  rw [sumTeams_bumpOpt, sumTeams_bumpOpt]
  unfold sidesRecognized
  omega

theorem completedRow_short (row : List String) (h8 : row.length < 8) :
    completedRow row = false := by
  unfold completedRow
  rw [decide_eq_false (by omega : ¬ 8 ≤ row.length), Bool.false_and]

theorem scheduledRow_short (row : List String) (h8 : row.length < 8) :
    scheduledRow row = false := by
  unfold scheduledRow
  rw [decide_eq_false (by omega : ¬ 8 ≤ row.length), Bool.false_and]

theorem completedRow_scheduled (row : List String)
    (hs : pyStrip (row.getD 7 "") = "Scheduled") : completedRow row = false := by
  unfold completedRow
  rw [hs, show (("Scheduled" == "Scheduled") : Bool) = true from rfl]
  rw [Bool.not_true, Bool.and_false]

theorem scheduledRow_scheduled (row : List String) (h8 : ¬ row.length < 8)
    (hs : pyStrip (row.getD 7 "") = "Scheduled") : scheduledRow row = true := by
  unfold scheduledRow
  rw [hs, decide_eq_true (by omega : 8 ≤ row.length)]
  rfl

theorem completedRow_final (row : List String) (h8 : ¬ row.length < 8)
    (hs : pyStrip (row.getD 7 "") ≠ "Scheduled") : completedRow row = true := by
  unfold completedRow
  rw [decide_eq_true (by omega : 8 ≤ row.length), Bool.true_and,
    beq_eq_false_iff_ne.mpr hs]
  rfl

theorem scheduledRow_final (row : List String)
    (hs : pyStrip (row.getD 7 "") ≠ "Scheduled") : scheduledRow row = false := by
  unfold scheduledRow
  rw [beq_eq_false_iff_ne.mpr hs, Bool.and_false]

/-- The completed-tally sum after one row. -/
theorem processRow_sum_completed (st : SchedState) (row : List String) :
    sumTeams (processRow st row).team_completed
      = sumTeams st.team_completed + (if completedRow row then sidesRecognized row else 0) := by
  unfold processRow
  by_cases h8 : row.length < 8
  · rw [if_pos h8, completedRow_short row h8]
    simp
  · rw [if_neg h8]
    by_cases hs : pyStrip (row.getD 7 "") = "Scheduled"
    · rw [if_pos hs, completedRow_scheduled row hs]
      simp
    · rw [if_neg hs, completedRow_final row h8 hs, if_pos rfl]
      rcases hv : parseIntPy (pyStrip (row.getD 4 "")) with _ | v <;>
        rcases hh : parseIntPy (pyStrip (row.getD 6 "")) with _ | h <;>
        simp only [hv, hh] <;>
        exact sumTeams_bumpBoth st.team_completed row

/-- The remaining-tally sum after one row. -/
theorem processRow_sum_remaining (st : SchedState) (row : List String) :
    sumTeams (processRow st row).team_remaining
      = sumTeams st.team_remaining + (if scheduledRow row then sidesRecognized row else 0) := by
  unfold processRow
  by_cases h8 : row.length < 8
  · rw [if_pos h8, scheduledRow_short row h8]
    simp
  · rw [if_neg h8]
    by_cases hs : pyStrip (row.getD 7 "") = "Scheduled"
    · rw [if_pos hs, scheduledRow_scheduled row h8 hs, if_pos rfl]
      exact sumTeams_bumpBoth st.team_remaining row
    · rw [if_neg hs, scheduledRow_final row hs]
      rcases hv : parseIntPy (pyStrip (row.getD 4 "")) with _ | v <;>
        rcases hh : parseIntPy (pyStrip (row.getD 6 "")) with _ | h <;>
        simp only [hv, hh] <;>
        simp

theorem schedule_sums_aux (rows : List (List String)) : ∀ st : SchedState,
    sumTeams ((rows.foldl processRow st).team_completed)
        = sumTeams st.team_completed
          + (rows.map (fun r => if completedRow r then sidesRecognized r else 0)).sum
    ∧ sumTeams ((rows.foldl processRow st).team_remaining)
        = sumTeams st.team_remaining
          + (rows.map (fun r => if scheduledRow r then sidesRecognized r else 0)).sum := by
  induction rows with
  | nil => intro st; simp
  | cons r t ih =>
    intro st
    rw [List.foldl_cons, List.map_cons, List.sum_cons, List.map_cons, List.sum_cons]
    obtain ⟨ih1, ih2⟩ := ih (processRow st r)
    constructor
    · rw [ih1, processRow_sum_completed]
      omega
    · rw [ih2, processRow_sum_remaining]
      omega

/-- A schedule row whose visitor team is recognized but whose home team is
not: its game is still counted once, for the visitor. -/
def exBadSchedule : List (List String) :=
  [["d", "t", "t", "Boston Bruins", "", "Nowhere FC", "", "Scheduled"]]

/-! ## Player lookup (`data_loader.build_player_lookup`)

The fuzzy matcher (`thefuzz`-backed `fuzzy_match_name`) is an external
library call; `build_player_lookup` is parametrised by it. The only property
of it the source relies on is that `fuzzy_match_name` returns `None` for an
empty candidate list. -/

/-- One iteration of `build_player_lookup`'s loop: skip names already
looked up, try an exact key in the position-appropriate stats collection,
else consult the fuzzy matcher over that collection's names. -/
def lookupStep (matcher : String → List String → Option String)
    (skater_stats : List (String × SkaterRecord))
    (goalie_stats : List (String × GoalieRecord))
    (lk : List (String × Option String)) (player : RosterPlayer) :
    List (String × Option String) :=
  if (List.lookup player.name lk).isSome then lk
  else if player.position = "G" then
    if (List.lookup player.name goalie_stats).isSome then
      lk ++ [(player.name, some player.name)]
    else
      lk ++ [(player.name, matcher player.name (goalie_stats.map Prod.fst))]
  else
    if (List.lookup player.name skater_stats).isSome then
      lk ++ [(player.name, some player.name)]
    else
      lk ++ [(player.name, matcher player.name (skater_stats.map Prod.fst))]

/-- `data_loader.build_player_lookup`. -/
def build_player_lookup (matcher : String → List String → Option String)
    (fchl_roster : List RosterPlayer)
    (skater_stats : List (String × SkaterRecord))
    (goalie_stats : List (String × GoalieRecord)) : List (String × Option String) :=
  fchl_roster.foldl (lookupStep matcher skater_stats goalie_stats) []

/-- `fuzzy_match_name` with no candidates: `if not candidates: return None`. -/
def noMatcher : String → List String → Option String := fun _ _ => none

theorem lookup_append_some {α β : Type} [BEq α] (n : α) (v : β) (l1 l2 : List (α × β))
    (h : List.lookup n l1 = some v) : List.lookup n (l1 ++ l2) = some v := by
  induction l1 with
  | nil => cases h
  | cons a t ih =>
    rw [List.cons_append]
    simp only [List.lookup] at h ⊢
    split at h
    · exact h
    · exact ih h

theorem lookup_append_none {α β : Type} [BEq α] (n : α) (l1 l2 : List (α × β))
    (h : List.lookup n l1 = none) : List.lookup n (l1 ++ l2) = List.lookup n l2 := by
  induction l1 with
  | nil => rfl
  | cons a t ih =>
    rw [List.cons_append]
    simp only [List.lookup] at h ⊢
    split at h
    · cases h
    · exact ih h

/-- A key already present keeps its value through the rest of the fold. -/
theorem lookupFold_preserves (matcher : String → List String → Option String)
    (ss : List (String × SkaterRecord)) (gs : List (String × GoalieRecord))
    (l : List RosterPlayer) :
    ∀ lk : List (String × Option String), ∀ n : String,
      (List.lookup n lk).isSome = true →
      List.lookup n (l.foldl (lookupStep matcher ss gs) lk) = List.lookup n lk := by
  induction l with
  | nil => intro lk n _; rfl
  | cons q t ih =>
    intro lk n hn
    rw [List.foldl_cons]
    obtain ⟨v, hv⟩ := Option.isSome_iff_exists.mp hn
    have hstep : List.lookup n (lookupStep matcher ss gs lk q) = some v := by
      unfold lookupStep
      split
      · exact hv
      · split <;> split <;> exact lookup_append_some n v lk _ hv
    rw [ih (lookupStep matcher ss gs lk q) n (by rw [hstep]; rfl), hstep, hv]

/-- A name carried by no player of the fold stays absent. -/
theorem lookupFold_fresh (matcher : String → List String → Option String)
    (ss : List (String × SkaterRecord)) (gs : List (String × GoalieRecord))
    (l : List RosterPlayer) :
    ∀ lk : List (String × Option String), ∀ n : String,
      List.lookup n lk = none → (∀ q ∈ l, q.name ≠ n) →
      List.lookup n (l.foldl (lookupStep matcher ss gs) lk) = none := by
  induction l with
  | nil => intro lk n hn _; exact hn
  | cons q t ih =>
    intro lk n hn hfr
    rw [List.foldl_cons]
    have hqn : q.name ≠ n := hfr q (List.mem_cons_self q t)
    have hstep : List.lookup n (lookupStep matcher ss gs lk q) = none := by
      unfold lookupStep
      have hsingle : ∀ v : Option String, List.lookup n [(q.name, v)] = none := by
        intro v
        simp only [List.lookup]
        rw [show ((n == q.name) : Bool) = false from
          beq_eq_false_iff_ne.mpr (fun he => hqn he.symm)]
      split
      · exact hn
      · split <;> split <;> rw [lookup_append_none n lk _ hn, hsingle]
    exact ih (lookupStep matcher ss gs lk q) n hstep
      (fun r hr => hfr r (List.mem_cons_of_mem q hr))

/-- A fresh name that is an exact key of the position-appropriate collection
gets the exact match, whatever the matcher. -/
theorem lookupStep_exact (matcher : String → List String → Option String)
    (ss : List (String × SkaterRecord)) (gs : List (String × GoalieRecord))
    (lk : List (String × Option String)) (p : RosterPlayer)
    (hnk : List.lookup p.name lk = none)
    (hpool : (if p.position = "G" then (List.lookup p.name gs).isSome
              else (List.lookup p.name ss).isSome) = true) :
    List.lookup p.name (lookupStep matcher ss gs lk p) = some (some p.name) := by
  unfold lookupStep
  rw [if_neg (by rw [hnk]; simp)]
  by_cases hpos : p.position = "G"
  · rw [if_pos hpos] at hpool
    rw [if_pos hpos, if_pos hpool, lookup_append_none p.name _ _ hnk]
    simp [List.lookup]
  · rw [if_neg hpos] at hpool
    rw [if_neg hpos, if_pos hpool, lookup_append_none p.name _ _ hnk]
    simp [List.lookup]

/-! ## Standings aggregation (`projections.compute_standings`) -/

/-- Key collection in insertion order (dict / ordered-set behaviour). -/
def insertKey (l : List String) (k : String) : List String :=
  if k ∈ l then l else l ++ [k]

/-- The final value of `team_proj[t]`: the incremental
`team_proj[team] = team_proj.get(team, 0.0) + proj["proj_pts"]` fold. -/
def teamProjVal (projections : List PlayerProjection) (t : String) : ℚ :=
  projections.foldl (fun acc pr => if pr.fchl_team = t then acc + pr.proj_pts else acc) 0

/-- The keys of `team_proj`, in first-occurrence order. -/
def projTeamKeys (projections : List PlayerProjection) : List String :=
  projections.foldl (fun acc pr => insertKey acc pr.fchl_team) []

/-- `set(list(team_proj.keys()) + list(current_pts.keys()))`: the union of
both key sets (iteration order of a Python set is unspecified; this model
fixes first-occurrence order). -/
def allTeams (projections : List PlayerProjection)
    (current_pts : List (String × Int)) : List String :=
  current_pts.foldl (fun acc kv => insertKey acc kv.1) (projTeamKeys projections)

/-- The TeamStanding dict built for one team. -/
def mkStanding (projections : List PlayerProjection)
    (current_pts : List (String × Int)) (t : String) : TeamStanding :=
  { fchl_team := t,
    current_pts := (List.lookup t current_pts).getD 0,
    proj_remaining := teamProjVal projections t,
    proj_total := (((List.lookup t current_pts).getD 0 : Int) : ℚ)
      + teamProjVal projections t }

/-- The sort key relation of `standings.sort(key=..., reverse=True)`:
descending projected total. -/
def standingsGE (a b : TeamStanding) : Prop := b.proj_total ≤ a.proj_total

instance : DecidableRel standingsGE :=
  fun a b => inferInstanceAs (Decidable (b.proj_total ≤ a.proj_total))

instance : IsTotal TeamStanding standingsGE :=
  ⟨fun a b => le_total b.proj_total a.proj_total⟩

instance : IsTrans TeamStanding standingsGE :=
  ⟨fun _ _ _ hab hbc => le_trans hbc hab⟩

/-- `projections.compute_standings`: one standing per team in the union,
sorted descending by projected total (the underlying sort is stable;
tie order is implementation-defined). -/
def compute_standings (projections : List PlayerProjection)
    (current_pts : List (String × Int)) : List TeamStanding :=
  List.insertionSort standingsGE
    ((allTeams projections current_pts).map (mkStanding projections current_pts))

theorem mem_insertKey (l : List String) (k x : String) :
    x ∈ insertKey l k ↔ x ∈ l ∨ x = k := by
  unfold insertKey
  by_cases hk : k ∈ l
  · rw [if_pos hk]
    constructor
    · exact fun h => Or.inl h
    · rintro (h | rfl)
      · exact h
      · exact hk
  · rw [if_neg hk]
    simp

theorem nodup_insertKey (l : List String) (k : String) (h : l.Nodup) :
    (insertKey l k).Nodup := by
  unfold insertKey
  by_cases hk : k ∈ l
  · rw [if_pos hk]; exact h
  · rw [if_neg hk]
    rw [List.nodup_append]
    exact ⟨h, List.nodup_singleton k, by
      intro a ha hmem
      rw [List.mem_singleton] at hmem
      exact hk (hmem ▸ ha)⟩

theorem foldl_insertKey_nodup {α : Type} (g : α → String) (l : List α) :
    ∀ acc : List String, acc.Nodup →
      (l.foldl (fun a x => insertKey a (g x)) acc).Nodup := by
  induction l with
  | nil => exact fun acc h => h
  | cons a t ih =>
    intro acc h
    rw [List.foldl_cons]
    exact ih (insertKey acc (g a)) (nodup_insertKey acc (g a) h)

theorem mem_foldl_insertKey {α : Type} (g : α → String) (l : List α) :
    ∀ (acc : List String) (x : String),
      x ∈ l.foldl (fun a y => insertKey a (g y)) acc
        ↔ x ∈ acc ∨ ∃ y ∈ l, g y = x := by
  induction l with
  | nil => simp
  | cons a t ih =>
    intro acc x
    rw [List.foldl_cons, ih, mem_insertKey]
    constructor
    · rintro ((h | rfl) | ⟨y, hy, rfl⟩)
      · exact Or.inl h
      · exact Or.inr ⟨a, List.mem_cons_self a t, rfl⟩
      · exact Or.inr ⟨y, List.mem_cons_of_mem a hy, rfl⟩
    · rintro (h | ⟨y, hy, rfl⟩)
      · exact Or.inl (Or.inl h)
      · rcases List.mem_cons.mp hy with rfl | hy'
        · exact Or.inl (Or.inr rfl)
        · exact Or.inr ⟨y, hy', rfl⟩

theorem allTeams_nodup (projections : List PlayerProjection)
    (current_pts : List (String × Int)) : (allTeams projections current_pts).Nodup := by
  unfold allTeams projTeamKeys
  exact foldl_insertKey_nodup Prod.fst current_pts _
    (foldl_insertKey_nodup (fun pr => pr.fchl_team) projections [] List.nodup_nil)

theorem mem_allTeams (projections : List PlayerProjection)
    (current_pts : List (String × Int)) (t : String) :
    t ∈ allTeams projections current_pts
      ↔ (∃ pr ∈ projections, pr.fchl_team = t) ∨ (∃ kv ∈ current_pts, kv.1 = t) := by
  unfold allTeams projTeamKeys
  rw [mem_foldl_insertKey Prod.fst current_pts, mem_foldl_insertKey]
  simp only [List.not_mem_nil, false_or]

/-- A projection worth 50 points for fantasy team `"A"`. -/
def exProjA : PlayerProjection := ⟨"PA", "F", "A", "", 0, 0, 0, 0, 50, true⟩

/-- A projection worth 10 points for fantasy team `"B"`. -/
def exProjB : PlayerProjection := ⟨"PB", "F", "B", "", 0, 0, 0, 0, 10, true⟩

/-- The spec's baseline `{A: 800, B: 900}`. -/
def exCurPts : List (String × Int) := [("A", 800), ("B", 900)]

/-- A roster with one name shared by a goalie entry and a skater entry. -/
def dupRoster : List RosterPlayer :=
  [⟨"G X", "X", "G", "BOT"⟩, ⟨"F X", "X", "F", "BOT"⟩]

/-- A skater-statistics collection keyed by that shared name. -/
def exDupSkaterStats : List (String × SkaterRecord) := [("X", ⟨"X", "EDM", 1, 0, 0, 0⟩)]

end FCHL

/-- Counterexample to C7 as stated: the defensive de-duplication keeps only
the first entry per roster name. Here the goalie `"X"` is processed first
(no goalie record exists, and the fuzzy search over the empty goalie name
list returns no match), so the later skater `"X"` — whose name is an exact
key of the skater collection — is skipped and `lookup["X"]` is not `"X"`. -/
theorem exact_match_claim_counterexample :
    (List.lookup "X" FCHL.exDupSkaterStats).isSome = true
    ∧ (⟨"F X", "X", "F", "BOT"⟩ : FCHL.RosterPlayer) ∈ FCHL.dupRoster
    ∧ List.lookup "X"
        (FCHL.build_player_lookup FCHL.noMatcher FCHL.dupRoster FCHL.exDupSkaterStats [])
      ≠ some (some "X") := by
  decide

/-- C7 (amended): for the first roster player bearing a given name, if that
name is an exact key of the statistics collection appropriate to the
player's position, `build_player_lookup` records an exact match
(`lookup[name] == name`), with no fuzzy matching involved — the conclusion
holds for every matcher. -/
theorem exact_match_short_circuit
    (matcher : String → List String → Option String)
    (ss : List (String × FCHL.SkaterRecord)) (gs : List (String × FCHL.GoalieRecord))
    (pre post : List FCHL.RosterPlayer) (p : FCHL.RosterPlayer)
    (hfresh : ∀ q ∈ pre, q.name ≠ p.name)
    (hpool : (if p.position = "G" then (List.lookup p.name gs).isSome
              else (List.lookup p.name ss).isSome) = true) :
    List.lookup p.name (FCHL.build_player_lookup matcher (pre ++ p :: post) ss gs)
      = some (some p.name) := by
  unfold FCHL.build_player_lookup
  rw [List.foldl_append, List.foldl_cons]
  have hnone : List.lookup p.name (pre.foldl (FCHL.lookupStep matcher ss gs) []) = none :=
    FCHL.lookupFold_fresh matcher ss gs pre [] p.name rfl hfresh
  have hstep := FCHL.lookupStep_exact matcher ss gs
    (pre.foldl (FCHL.lookupStep matcher ss gs) []) p hnone hpool
  rw [FCHL.lookupFold_preserves matcher ss gs post _ p.name (by rw [hstep]; rfl), hstep]

/-- Witness for C7 (amended): a singleton roster whose player's name is an
exact skater key gets an exact match. -/
theorem exact_match_short_circuit_witness :
    List.lookup "X"
      (FCHL.build_player_lookup FCHL.noMatcher
        ([⟨"F X", "X", "F", "BOT"⟩] : List FCHL.RosterPlayer) FCHL.exDupSkaterStats [])
      = some (some "X") :=
  exact_match_short_circuit FCHL.noMatcher FCHL.exDupSkaterStats [] [] []
    ⟨"F X", "X", "F", "BOT"⟩ (by simp) (by decide)

/-- Counterexample to C5 as stated: a scheduled row with exactly one
recognized team contributes 1 to the remaining-count sum, so the sum is not
twice the number of rows recognized on both sides (1 ≠ 2·0). -/
theorem schedule_sum_claim_counterexample :
    ¬ (FCHL.sumTeams (FCHL.load_schedule FCHL.exBadSchedule).team_completed
        = 2 * FCHL.exBadSchedule.countP
            (fun r => FCHL.completedRow r && FCHL.bothRecognized r)
      ∧ FCHL.sumTeams (FCHL.load_schedule FCHL.exBadSchedule).team_remaining
        = 2 * FCHL.exBadSchedule.countP
            (fun r => FCHL.scheduledRow r && FCHL.bothRecognized r)) := by
  decide

/-- C5 (amended): the sum over all teams of the completed-count map equals
the number of recognized team slots over completed-status rows — twice the
rows recognized on both sides plus once the rows recognized on exactly one
side — and likewise for the remaining-count map over not-yet-played rows. -/
theorem schedule_team_sums (rows : List (List String)) :
    FCHL.sumTeams (FCHL.load_schedule rows).team_completed
      = (rows.map (fun r => if FCHL.completedRow r then FCHL.sidesRecognized r else 0)).sum
    ∧ FCHL.sumTeams (FCHL.load_schedule rows).team_remaining
      = (rows.map (fun r => if FCHL.scheduledRow r then FCHL.sidesRecognized r else 0)).sum := by
  obtain ⟨h1, h2⟩ := FCHL.schedule_sums_aux rows ⟨fun _ => 0, fun _ => 0, fun _ => ⟨0, 0, 0⟩⟩
  constructor
  · unfold FCHL.load_schedule
    rw [h1]
    simp [FCHL.sumTeams]
  · unfold FCHL.load_schedule
    rw [h2]
    simp [FCHL.sumTeams]

/-- Counterexample to C1 as stated: a completed record whose scores parse
(3–2, decisive) and whose winning side names its starting goalie, but whose
losing side leaves the goalie cell empty. The code's win update is guarded
by `if visitor_goalie and home_goalie`, so the named winning goalie's `wins`
tally stays unchanged (it still gets a start), contradicting the claimed
unconditional increment. -/
theorem win_increment_claim_counterexample :
    FCHL.pyStrip ((["d", "t", "t", "Boston Bruins", "3", "Edmonton Oilers", "2", "Final",
        "Named Goalie", ""] : List String).getD 7 "") ≠ "Scheduled"
    ∧ FCHL.parseIntPy (FCHL.pyStrip ((["d", "t", "t", "Boston Bruins", "3",
        "Edmonton Oilers", "2", "Final", "Named Goalie", ""] : List String).getD 4 ""))
      = some 3
    ∧ FCHL.parseIntPy (FCHL.pyStrip ((["d", "t", "t", "Boston Bruins", "3",
        "Edmonton Oilers", "2", "Final", "Named Goalie", ""] : List String).getD 6 ""))
      = some 2
    ∧ (3 : Int) > 2
    ∧ FCHL.pyStrip ((["d", "t", "t", "Boston Bruins", "3", "Edmonton Oilers", "2", "Final",
        "Named Goalie", ""] : List String).getD 8 "") = "Named Goalie"
    ∧ ((FCHL.processRow (FCHL.load_schedule [])
          ["d", "t", "t", "Boston Bruins", "3", "Edmonton Oilers", "2", "Final",
            "Named Goalie", ""]).goalie_stats "Named Goalie").wins
        = ((FCHL.load_schedule []).goalie_stats "Named Goalie").wins := by
  decide

/-- C1 (amended): for a completed schedule record whose scores both parse as
integers, whose two starting goalies are BOTH named (the code awards the win
only when both cells are non-empty) and whose result is decisive, the winner
is the side with the strictly higher score and that side's starting goalie's
`wins` tally is incremented by one, while every other goalie's `wins` is
unchanged by the record. -/
theorem completed_game_win_increment
    (st : FCHL.SchedState) (row : List String) (v h : Int) (g : String)
    (hlen : 8 ≤ row.length)
    (hstatus : FCHL.pyStrip (row.getD 7 "") ≠ "Scheduled")
    (hv : FCHL.parseIntPy (FCHL.pyStrip (row.getD 4 "")) = some v)
    (hh : FCHL.parseIntPy (FCHL.pyStrip (row.getD 6 "")) = some h)
    (hvg : FCHL.pyStrip (row.getD 8 "") ≠ "")
    (hhg : FCHL.pyStrip (row.getD 9 "") ≠ "")
    (_hne : v ≠ h) :
    ((FCHL.processRow st row).goalie_stats
        (if v > h then FCHL.pyStrip (row.getD 8 "") else FCHL.pyStrip (row.getD 9 ""))).wins
      = (st.goalie_stats
          (if v > h then FCHL.pyStrip (row.getD 8 "") else FCHL.pyStrip (row.getD 9 ""))).wins + 1
    ∧ (g ≠ (if v > h then FCHL.pyStrip (row.getD 8 "") else FCHL.pyStrip (row.getD 9 "")) →
        ((FCHL.processRow st row).goalie_stats g).wins = (st.goalie_stats g).wins) := by
  have hlen' : ¬ row.length < 8 := by omega
  unfold FCHL.processRow
  rw [if_neg hlen', if_neg hstatus]
  simp only [hv, hh]
  constructor
  · rw [FCHL.wins_ite_bumpShutouts, FCHL.wins_ite_bumpShutouts, if_pos ⟨hvg, hhg⟩]
    by_cases hcw : v > h
    · rw [if_pos hcw, if_pos hcw, FCHL.wins_bumpWins, FCHL.wins_ite_bumpStarts,
        FCHL.wins_ite_bumpStarts, if_pos rfl]
    · rw [if_neg hcw, if_neg hcw, FCHL.wins_bumpWins, FCHL.wins_ite_bumpStarts,
        FCHL.wins_ite_bumpStarts, if_pos rfl]
  · intro hg2
    rw [FCHL.wins_ite_bumpShutouts, FCHL.wins_ite_bumpShutouts, if_pos ⟨hvg, hhg⟩]
    by_cases hcw : v > h
    · rw [if_pos hcw] at hg2
      rw [if_pos hcw, FCHL.wins_bumpWins, FCHL.wins_ite_bumpStarts,
        FCHL.wins_ite_bumpStarts, if_neg hg2, Nat.add_zero]
    · rw [if_neg hcw] at hg2
      rw [if_neg hcw, FCHL.wins_bumpWins, FCHL.wins_ite_bumpStarts,
        FCHL.wins_ite_bumpStarts, if_neg hg2, Nat.add_zero]

/-- Witness for C1 on a concrete completed row (visitor wins 3–2): the
visitor's goalie gains one win and an unrelated goalie's tally is unchanged. -/
theorem completed_game_win_increment_witness :
    ((FCHL.processRow (FCHL.load_schedule [])
        ["2025-10-08", "19:00", "18:00", "Boston Bruins", "3", "Edmonton Oilers", "2",
          "Final", "Visitor Goalie", "Home Goalie"]).goalie_stats
        (if (3 : Int) > 2 then
          FCHL.pyStrip ((["2025-10-08", "19:00", "18:00", "Boston Bruins", "3",
            "Edmonton Oilers", "2", "Final", "Visitor Goalie", "Home Goalie"] : List String).getD 8 "")
         else
          FCHL.pyStrip ((["2025-10-08", "19:00", "18:00", "Boston Bruins", "3",
            "Edmonton Oilers", "2", "Final", "Visitor Goalie", "Home Goalie"] : List String).getD 9 ""))).wins
      = ((FCHL.load_schedule []).goalie_stats
          (if (3 : Int) > 2 then
            FCHL.pyStrip ((["2025-10-08", "19:00", "18:00", "Boston Bruins", "3",
              "Edmonton Oilers", "2", "Final", "Visitor Goalie", "Home Goalie"] : List String).getD 8 "")
           else
            FCHL.pyStrip ((["2025-10-08", "19:00", "18:00", "Boston Bruins", "3",
              "Edmonton Oilers", "2", "Final", "Visitor Goalie", "Home Goalie"] : List String).getD 9 ""))).wins + 1
    ∧ ("Other Goalie" ≠ (if (3 : Int) > 2 then
          FCHL.pyStrip ((["2025-10-08", "19:00", "18:00", "Boston Bruins", "3",
            "Edmonton Oilers", "2", "Final", "Visitor Goalie", "Home Goalie"] : List String).getD 8 "")
         else
          FCHL.pyStrip ((["2025-10-08", "19:00", "18:00", "Boston Bruins", "3",
            "Edmonton Oilers", "2", "Final", "Visitor Goalie", "Home Goalie"] : List String).getD 9 "")) →
        ((FCHL.processRow (FCHL.load_schedule [])
            ["2025-10-08", "19:00", "18:00", "Boston Bruins", "3", "Edmonton Oilers", "2",
              "Final", "Visitor Goalie", "Home Goalie"]).goalie_stats "Other Goalie").wins
          = ((FCHL.load_schedule []).goalie_stats "Other Goalie").wins) :=
  completed_game_win_increment (FCHL.load_schedule [])
    ["2025-10-08", "19:00", "18:00", "Boston Bruins", "3", "Edmonton Oilers", "2",
      "Final", "Visitor Goalie", "Home Goalie"] 3 2 "Other Goalie"
    (by decide) (by decide) (by decide) (by decide) (by decide) (by decide) (by decide)

/-- C3: for a goalie matched to a goalie record, `project_goalie` takes the
schedule tally by the matched statistics key, falling back to the raw roster
name when that key is absent; with `starts ≠ 0` and a nonzero team
completed-game count it returns
`proj_wins = (wins/starts) × remaining_starts`,
`proj_shutouts = (shutouts/starts) × remaining_starts` with
`remaining_starts = (starts/team_completed) × team_remaining`, and
`proj_pts = 2 × proj_wins + 3 × proj_shutouts`. -/
theorem goalie_projection_formula
    (player : FCHL.RosterPlayer) (k : String) (g : FCHL.GoalieRecord)
    (goalie_stats : List (String × FCHL.GoalieRecord))
    (gss : List (String × FCHL.GoalieTally))
    (tc tr : List (String × Nat)) (t : FCHL.GoalieTally)
    (hk : List.lookup k goalie_stats = some g)
    (ht : List.lookup k gss = some t
      ∨ (List.lookup k gss = none ∧ (List.lookup player.name gss).getD ⟨0, 0, 0⟩ = t))
    (hstarts : t.starts ≠ 0)
    (hcomp : (List.lookup g.nhl_team tc).getD 0 ≠ 0) :
    (FCHL.project_goalie player (some k) goalie_stats gss tc tr).proj_wins
        = ((t.wins : ℚ) / (t.starts : ℚ))
          * (((t.starts : ℚ) / (((List.lookup g.nhl_team tc).getD 0 : Nat) : ℚ))
            * (((List.lookup g.nhl_team tr).getD 0 : Nat) : ℚ))
    ∧ (FCHL.project_goalie player (some k) goalie_stats gss tc tr).proj_shutouts
        = ((t.shutouts : ℚ) / (t.starts : ℚ))
          * (((t.starts : ℚ) / (((List.lookup g.nhl_team tc).getD 0 : Nat) : ℚ))
            * (((List.lookup g.nhl_team tr).getD 0 : Nat) : ℚ))
    ∧ (FCHL.project_goalie player (some k) goalie_stats gss tc tr).proj_pts
        = 2 * (FCHL.project_goalie player (some k) goalie_stats gss tc tr).proj_wins
          + 3 * (FCHL.project_goalie player (some k) goalie_stats gss tc tr).proj_shutouts := by
  have hsched : FCHL.schedTallyFor gss k player.name = t := by
    rcases ht with h | ⟨h1, h2⟩
    · unfold FCHL.schedTallyFor; rw [h]
    · unfold FCHL.schedTallyFor; rw [h1, h2]
  have hcond : ¬ (t.starts = 0 ∨ (List.lookup g.nhl_team tc).getD 0 = 0) :=
    not_or.mpr ⟨hstarts, hcomp⟩
  unfold FCHL.project_goalie
  simp only [hk, hsched, if_neg hcond]
  refine ⟨trivial, trivial, ?_⟩
  simp only [FCHL.WIN_PTS, FCHL.SHUTOUT_PTS]
  ring

/-- Witness for C3 at the spec's example: schedule tally
`{starts:20, wins:12, shutouts:2}`, team `completed=25, remaining=15` gives
`remaining_starts = 12`, `proj_wins = 7.2`, `proj_shutouts = 1.2`,
`proj_pts = 18`. -/
theorem goalie_projection_formula_witness :
    ((FCHL.exGoalieTally.starts : ℚ)
        / (((List.lookup FCHL.exGoalie.nhl_team FCHL.exTeamCompleted).getD 0 : Nat) : ℚ))
      * (((List.lookup FCHL.exGoalie.nhl_team FCHL.exTeamRemainingG).getD 0 : Nat) : ℚ) = 12
    ∧ (FCHL.project_goalie FCHL.exGoaliePlayer (some "Net Minder") FCHL.exGoalieStats
        FCHL.exSchedStats FCHL.exTeamCompleted FCHL.exTeamRemainingG).proj_wins = 7.2
    ∧ (FCHL.project_goalie FCHL.exGoaliePlayer (some "Net Minder") FCHL.exGoalieStats
        FCHL.exSchedStats FCHL.exTeamCompleted FCHL.exTeamRemainingG).proj_shutouts = 1.2
    ∧ (FCHL.project_goalie FCHL.exGoaliePlayer (some "Net Minder") FCHL.exGoalieStats
        FCHL.exSchedStats FCHL.exTeamCompleted FCHL.exTeamRemainingG).proj_pts = 18 := by
  have h := goalie_projection_formula FCHL.exGoaliePlayer "Net Minder" FCHL.exGoalie
    FCHL.exGoalieStats FCHL.exSchedStats FCHL.exTeamCompleted FCHL.exTeamRemainingG
    FCHL.exGoalieTally (by rfl) (Or.inl (by rfl)) (by decide) (by decide)
  refine ⟨?_, ?_, ?_, ?_⟩
  · norm_num [FCHL.exGoalie, FCHL.exGoalieTally, FCHL.exTeamCompleted,
      FCHL.exTeamRemainingG, List.lookup]
  · rw [h.1]
    norm_num [FCHL.exGoalie, FCHL.exGoalieTally, FCHL.exTeamCompleted,
      FCHL.exTeamRemainingG, List.lookup]
  · rw [h.2.1]
    norm_num [FCHL.exGoalie, FCHL.exGoalieTally, FCHL.exTeamCompleted,
      FCHL.exTeamRemainingG, List.lookup]
  · rw [h.2.2, h.1, h.2.1]
    norm_num [FCHL.exGoalie, FCHL.exGoalieTally, FCHL.exTeamCompleted,
      FCHL.exTeamRemainingG, List.lookup]

/-- C8: neither projection ever divides by zero: the zero-guards on
`games_played`, `starts` and the team's completed-game count ensure the
checked variants (which fail on any zero denominator) always succeed, and
they return exactly the unchecked projections. -/
theorem projections_never_divide_by_zero
    (player : FCHL.RosterPlayer) (stats_key : Option String)
    (skater_stats : List (String × FCHL.SkaterRecord))
    (goalie_stats : List (String × FCHL.GoalieRecord))
    (gss : List (String × FCHL.GoalieTally))
    (tc tr : List (String × Nat)) :
    FCHL.project_skater_checked player stats_key skater_stats tr
        = some (FCHL.project_skater player stats_key skater_stats tr)
    ∧ FCHL.project_goalie_checked player stats_key goalie_stats gss tc tr
        = some (FCHL.project_goalie player stats_key goalie_stats gss tc tr) := by
  constructor
  · unfold FCHL.project_skater_checked FCHL.project_skater
    rcases stats_key with _ | k
    · rfl
    · rcases hl : List.lookup k skater_stats with _ | s
      · simp only [hl]
      · simp only [hl]
        by_cases hgp : s.games_played ≤ 0
        · rw [if_pos hgp, if_pos hgp]
        · rw [if_neg hgp, if_neg hgp]
          have hne : s.games_played ≠ 0 := fun h => hgp (le_of_eq h)
          simp [FCHL.checkedDiv, hne]
  · unfold FCHL.project_goalie_checked FCHL.project_goalie
    rcases stats_key with _ | k
    · rfl
    · rcases hl : List.lookup k goalie_stats with _ | g
      · simp only [hl]
      · simp only [hl]
        by_cases hz : (FCHL.schedTallyFor gss k player.name).starts = 0
            ∨ (List.lookup g.nhl_team tc).getD 0 = 0
        · rw [if_pos hz, if_pos hz]
        · rw [if_neg hz, if_neg hz]
          push_neg at hz
          have hs : ((FCHL.schedTallyFor gss k player.name).starts : ℚ) ≠ 0 :=
            Nat.cast_ne_zero.mpr hz.1
          have hc : (((List.lookup g.nhl_team tc).getD 0 : Nat) : ℚ) ≠ 0 :=
            Nat.cast_ne_zero.mpr hz.2
          simp [FCHL.checkedDiv, hs, hc]

/-- C4: for a skater matched to a record with `games_played > 0`,
`project_skater` returns `proj_goals = (goals/games_played) × remaining`,
`proj_assists = ((primary_assists+secondary_assists)/games_played) × remaining`
and `proj_pts = proj_goals + proj_assists`, with `remaining` the team's
remaining-games count, 0 when the team is unknown (then all three are 0). -/
theorem skater_projection_formula
    (player : FCHL.RosterPlayer) (k : String) (s : FCHL.SkaterRecord)
    (skater_stats : List (String × FCHL.SkaterRecord))
    (team_remaining : List (String × Nat))
    (hk : List.lookup k skater_stats = some s)
    (hgp : 0 < s.games_played) :
    (FCHL.project_skater player (some k) skater_stats team_remaining).proj_goals
        = s.goals / s.games_played
          * ((List.lookup s.nhl_team team_remaining).getD 0 : ℚ)
    ∧ (FCHL.project_skater player (some k) skater_stats team_remaining).proj_assists
        = (s.primary_assists + s.secondary_assists) / s.games_played
          * ((List.lookup s.nhl_team team_remaining).getD 0 : ℚ)
    ∧ (FCHL.project_skater player (some k) skater_stats team_remaining).proj_pts
        = (FCHL.project_skater player (some k) skater_stats team_remaining).proj_goals
          + (FCHL.project_skater player (some k) skater_stats team_remaining).proj_assists
    ∧ (List.lookup s.nhl_team team_remaining = none →
        (FCHL.project_skater player (some k) skater_stats team_remaining).proj_goals = 0
        ∧ (FCHL.project_skater player (some k) skater_stats team_remaining).proj_assists = 0
        ∧ (FCHL.project_skater player (some k) skater_stats team_remaining).proj_pts = 0) := by
  have hne : ¬ s.games_played ≤ 0 := not_le.mpr hgp
  unfold FCHL.project_skater
  simp only [hk, if_neg hne]
  refine ⟨trivial, trivial, ?_, ?_⟩
  · simp [FCHL.GOAL_PTS, FCHL.ASSIST_PTS]
  · intro h0
    simp [h0]

/-- Witness for C4 at the spec's example: `goals=10, primary_assists=5,
secondary_assists=3, games_played=20, remaining=10` gives `proj_goals = 5`,
`proj_assists = 4`, `proj_pts = 9`. -/
theorem skater_projection_formula_witness :
    (FCHL.project_skater FCHL.exSkaterPlayer (some "Test Guy") FCHL.exSkaterStats
        FCHL.exTeamRemaining).proj_goals = 5
    ∧ (FCHL.project_skater FCHL.exSkaterPlayer (some "Test Guy") FCHL.exSkaterStats
        FCHL.exTeamRemaining).proj_assists = 4
    ∧ (FCHL.project_skater FCHL.exSkaterPlayer (some "Test Guy") FCHL.exSkaterStats
        FCHL.exTeamRemaining).proj_pts = 9 := by
  have h := skater_projection_formula FCHL.exSkaterPlayer "Test Guy" FCHL.exSkater
    FCHL.exSkaterStats FCHL.exTeamRemaining (by rfl) (by norm_num [FCHL.exSkater])
  refine ⟨?_, ?_, ?_⟩
  · rw [h.1]; norm_num [FCHL.exSkater, FCHL.exTeamRemaining, List.lookup]
  · rw [h.2.1]; norm_num [FCHL.exSkater, FCHL.exTeamRemaining, List.lookup]
  · rw [h.2.2.1, h.1, h.2.1]; norm_num [FCHL.exSkater, FCHL.exTeamRemaining, List.lookup]

/-- C2: in `project_all_players` output, `found_in_stats` is false iff the
lookup produced no match for the player's name, and an unmatched player's
projected numeric fields are all zero. The hypothesis is the spec's
PlayerLookup invariant: a stored match is a valid key of the statistics
collection matching the player's position (never a dangling reference). -/
theorem found_in_stats_iff_matched
    (roster : List FCHL.RosterPlayer) (lk : List (String × Option String))
    (ss : List (String × FCHL.SkaterRecord)) (gs : List (String × FCHL.GoalieRecord))
    (sd : FCHL.ScheduleData)
    (hwf : ∀ p ∈ roster, ∀ k, FCHL.statsKeyOf lk p.name = some k →
      (if p.position = "G" then (List.lookup k gs).isSome
       else (List.lookup k ss).isSome) = true) :
    ∀ pr ∈ FCHL.project_all_players roster lk ss gs sd,
      (pr.found_in_stats = false ↔ FCHL.statsKeyOf lk pr.name = none)
      ∧ (pr.found_in_stats = false →
          pr.proj_goals = 0 ∧ pr.proj_assists = 0 ∧ pr.proj_wins = 0
            ∧ pr.proj_shutouts = 0 ∧ pr.proj_pts = 0) := by
  intro pr hpr
  rw [FCHL.project_all_players, List.mem_map] at hpr
  obtain ⟨p, hp, rfl⟩ := hpr
  by_cases hpos : p.position = "G"
  · rw [if_pos hpos]
    rcases hkey : FCHL.statsKeyOf lk p.name with _ | k
    · rw [FCHL.project_goalie_name, hkey, FCHL.project_goalie_no_key]
      simp [FCHL.baseProjection]
    · have hsome := hwf p hp k hkey
      rw [if_pos hpos] at hsome
      obtain ⟨g, hg⟩ := Option.isSome_iff_exists.mp hsome
      have hfound := FCHL.project_goalie_found p k g gs
        sd.goalie_schedule_stats sd.team_completed sd.team_remaining hg
      constructor
      · rw [FCHL.project_goalie_name, hkey, hfound]
        simp
      · intro hff
        rw [hfound] at hff
        exact absurd hff (by simp)
  · rw [if_neg hpos]
    rcases hkey : FCHL.statsKeyOf lk p.name with _ | k
    · rw [FCHL.project_skater_name, hkey, FCHL.project_skater_no_key]
      simp [FCHL.baseProjection]
    · have hsome := hwf p hp k hkey
      rw [if_neg hpos] at hsome
      obtain ⟨s, hs⟩ := Option.isSome_iff_exists.mp hsome
      have hfound := FCHL.project_skater_found p k s ss sd.team_remaining hs
      constructor
      · rw [FCHL.project_skater_name, hkey, hfound]
        simp
      · intro hff
        rw [hfound] at hff
        exact absurd hff (by simp)

/-- Witness for C2: a one-player roster whose lookup maps the name to an
exact key of the skater collection; the resulting projection is marked found
and the equivalence holds at it. -/
theorem found_in_stats_iff_matched_witness :
    ((FCHL.project_skater FCHL.exSkaterPlayer
        (FCHL.statsKeyOf FCHL.exLookup FCHL.exSkaterPlayer.name) FCHL.exSkaterStats
        FCHL.exScheduleData.team_remaining).found_in_stats = false
      ↔ FCHL.statsKeyOf FCHL.exLookup
          (FCHL.project_skater FCHL.exSkaterPlayer
            (FCHL.statsKeyOf FCHL.exLookup FCHL.exSkaterPlayer.name) FCHL.exSkaterStats
            FCHL.exScheduleData.team_remaining).name = none)
    ∧ ((FCHL.project_skater FCHL.exSkaterPlayer
        (FCHL.statsKeyOf FCHL.exLookup FCHL.exSkaterPlayer.name) FCHL.exSkaterStats
        FCHL.exScheduleData.team_remaining).found_in_stats = false →
        (FCHL.project_skater FCHL.exSkaterPlayer
          (FCHL.statsKeyOf FCHL.exLookup FCHL.exSkaterPlayer.name) FCHL.exSkaterStats
          FCHL.exScheduleData.team_remaining).proj_goals = 0
        ∧ (FCHL.project_skater FCHL.exSkaterPlayer
          (FCHL.statsKeyOf FCHL.exLookup FCHL.exSkaterPlayer.name) FCHL.exSkaterStats
          FCHL.exScheduleData.team_remaining).proj_assists = 0
        ∧ (FCHL.project_skater FCHL.exSkaterPlayer
          (FCHL.statsKeyOf FCHL.exLookup FCHL.exSkaterPlayer.name) FCHL.exSkaterStats
          FCHL.exScheduleData.team_remaining).proj_wins = 0
        ∧ (FCHL.project_skater FCHL.exSkaterPlayer
          (FCHL.statsKeyOf FCHL.exLookup FCHL.exSkaterPlayer.name) FCHL.exSkaterStats
          FCHL.exScheduleData.team_remaining).proj_shutouts = 0
        ∧ (FCHL.project_skater FCHL.exSkaterPlayer
          (FCHL.statsKeyOf FCHL.exLookup FCHL.exSkaterPlayer.name) FCHL.exSkaterStats
          FCHL.exScheduleData.team_remaining).proj_pts = 0) := by
  refine found_in_stats_iff_matched FCHL.exRosterS FCHL.exLookup FCHL.exSkaterStats []
    FCHL.exScheduleData ?_ _ ?_
  · intro p hp k hk
    have hp' : p = FCHL.exSkaterPlayer := by
      simpa [FCHL.exRosterS] using hp
    subst hp'
    have hk' : k = "Test Guy" := by
      have : FCHL.statsKeyOf FCHL.exLookup FCHL.exSkaterPlayer.name = some "Test Guy" := by rfl
      rw [this] at hk
      exact (Option.some_inj.mp hk).symm
    subst hk'
    simp [FCHL.exSkaterPlayer, FCHL.exSkaterStats]
  · rw [FCHL.project_all_players]
    simp only [FCHL.exRosterS, List.map_cons, List.map_nil]
    have hpos : FCHL.exSkaterPlayer.position = "G" ↔ False := by
      simp [FCHL.exSkaterPlayer]
    rw [if_neg (hpos.mp)]
    exact List.mem_singleton.mpr rfl

/-- C10: the position determines which projected fields can be non-zero:
every projection of a non-goalie roster player has zero `proj_wins` and
`proj_shutouts`, and every projection of a goalie has zero `proj_goals` and
`proj_assists`. -/
theorem position_gates_projection
    (roster : List FCHL.RosterPlayer) (lk : List (String × Option String))
    (ss : List (String × FCHL.SkaterRecord)) (gs : List (String × FCHL.GoalieRecord))
    (sd : FCHL.ScheduleData) :
    ∀ pr ∈ FCHL.project_all_players roster lk ss gs sd,
      (pr.position ≠ "G" → pr.proj_wins = 0 ∧ pr.proj_shutouts = 0)
      ∧ (pr.position = "G" → pr.proj_goals = 0 ∧ pr.proj_assists = 0) := by
  intro pr hpr
  rw [FCHL.project_all_players, List.mem_map] at hpr
  obtain ⟨p, hp, rfl⟩ := hpr
  by_cases hpos : p.position = "G"
  · rw [if_pos hpos]
    constructor
    · intro hne
      exact absurd (by rw [FCHL.project_goalie_position]; exact hpos) hne
    · intro _
      exact FCHL.project_goalie_skater_fields p _ gs sd.goalie_schedule_stats
        sd.team_completed sd.team_remaining
  · rw [if_neg hpos]
    constructor
    · intro _
      exact FCHL.project_skater_goalie_fields p _ ss sd.team_remaining
    · intro heq
      rw [FCHL.project_skater_position] at heq
      exact absurd heq hpos

/-- Witness for C10 at a concrete non-goalie player: the skater-path
projection has zero `proj_wins` and `proj_shutouts`. -/
theorem position_gates_projection_witness :
    ((FCHL.project_skater FCHL.exSkaterPlayer
        (FCHL.statsKeyOf FCHL.exLookup FCHL.exSkaterPlayer.name) FCHL.exSkaterStats
        FCHL.exScheduleData.team_remaining).position ≠ "G" →
      (FCHL.project_skater FCHL.exSkaterPlayer
        (FCHL.statsKeyOf FCHL.exLookup FCHL.exSkaterPlayer.name) FCHL.exSkaterStats
        FCHL.exScheduleData.team_remaining).proj_wins = 0
      ∧ (FCHL.project_skater FCHL.exSkaterPlayer
        (FCHL.statsKeyOf FCHL.exLookup FCHL.exSkaterPlayer.name) FCHL.exSkaterStats
        FCHL.exScheduleData.team_remaining).proj_shutouts = 0)
    ∧ ((FCHL.project_skater FCHL.exSkaterPlayer
        (FCHL.statsKeyOf FCHL.exLookup FCHL.exSkaterPlayer.name) FCHL.exSkaterStats
        FCHL.exScheduleData.team_remaining).position = "G" →
      (FCHL.project_skater FCHL.exSkaterPlayer
        (FCHL.statsKeyOf FCHL.exLookup FCHL.exSkaterPlayer.name) FCHL.exSkaterStats
        FCHL.exScheduleData.team_remaining).proj_goals = 0
      ∧ (FCHL.project_skater FCHL.exSkaterPlayer
        (FCHL.statsKeyOf FCHL.exLookup FCHL.exSkaterPlayer.name) FCHL.exSkaterStats
        FCHL.exScheduleData.team_remaining).proj_assists = 0) := by
  refine position_gates_projection FCHL.exRosterS FCHL.exLookup FCHL.exSkaterStats []
    FCHL.exScheduleData _ ?_
  rw [FCHL.project_all_players]
  simp only [FCHL.exRosterS, List.map_cons, List.map_nil]
  have hpos : FCHL.exSkaterPlayer.position = "G" ↔ False := by
    simp [FCHL.exSkaterPlayer]
  rw [if_neg (hpos.mp)]
  exact List.mem_singleton.mpr rfl

/-- C9: `compute_standings` yields exactly one TeamStanding per fantasy team
in the union of the projection teams and the baseline keys, each with
`proj_total = current_pts + proj_remaining`, sorted descending by
`proj_total`; the spec's example (baseline `{A:800, B:900}`, summed
projections `{A:50, B:10}`) comes out `[B(910), A(850)]`. -/
theorem standings_spec (projections : List FCHL.PlayerProjection)
    (cur : List (String × Int)) :
    ((FCHL.compute_standings projections cur).map FCHL.TeamStanding.fchl_team).Perm
        (FCHL.allTeams projections cur)
    ∧ (FCHL.allTeams projections cur).Nodup
    ∧ (∀ t, t ∈ FCHL.allTeams projections cur ↔
        ((∃ pr ∈ projections, pr.fchl_team = t) ∨ (∃ kv ∈ cur, kv.1 = t)))
    ∧ (∀ s ∈ FCHL.compute_standings projections cur,
        s.current_pts = (List.lookup s.fchl_team cur).getD 0
        ∧ s.proj_remaining = FCHL.teamProjVal projections s.fchl_team
        ∧ s.proj_total = (s.current_pts : ℚ) + s.proj_remaining)
    ∧ List.Sorted FCHL.standingsGE (FCHL.compute_standings projections cur)
    ∧ FCHL.compute_standings [FCHL.exProjA, FCHL.exProjB] FCHL.exCurPts
        = [⟨"B", 900, 10, 910⟩, ⟨"A", 800, 50, 850⟩] := by
  refine ⟨?_, FCHL.allTeams_nodup projections cur, fun t => FCHL.mem_allTeams projections cur t,
    ?_, List.sorted_insertionSort FCHL.standingsGE _, ?_⟩
  · have hperm := (List.perm_insertionSort FCHL.standingsGE
      ((FCHL.allTeams projections cur).map (FCHL.mkStanding projections cur))).map
        FCHL.TeamStanding.fchl_team
    rw [List.map_map] at hperm
    have h2 : (FCHL.allTeams projections cur).map
        (FCHL.TeamStanding.fchl_team ∘ FCHL.mkStanding projections cur)
        = FCHL.allTeams projections cur := by
      calc (FCHL.allTeams projections cur).map
            (FCHL.TeamStanding.fchl_team ∘ FCHL.mkStanding projections cur)
          = (FCHL.allTeams projections cur).map id :=
            List.map_congr_left (fun x _ => rfl)
        _ = FCHL.allTeams projections cur := List.map_id _
    rw [h2] at hperm
    exact hperm
  · intro s hs
    have hs' : s ∈ List.insertionSort FCHL.standingsGE
        ((FCHL.allTeams projections cur).map (FCHL.mkStanding projections cur)) := hs
    have hmem := (List.perm_insertionSort FCHL.standingsGE
      ((FCHL.allTeams projections cur).map (FCHL.mkStanding projections cur))).subset hs'
    obtain ⟨t, _, rfl⟩ := List.mem_map.mp hmem
    exact ⟨rfl, rfl, rfl⟩
  · simp [FCHL.compute_standings, FCHL.allTeams, FCHL.projTeamKeys, FCHL.insertKey,
      FCHL.mkStanding, FCHL.teamProjVal, FCHL.standingsGE, FCHL.exProjA, FCHL.exProjB,
      FCHL.exCurPts, List.insertionSort, List.orderedInsert, List.lookup]
    norm_num

/-- C6: `parse_player_name` returns the first whitespace token as the position
and the remaining tokens joined as the name, stripping the last token iff it
is entirely numeric or a single uppercase letter and at least one name token
remains after removing it and the position; with fewer than two tokens it
returns an empty position and the whole raw string as the name. In particular
`"F Connor McDavid 97"` yields `("F", "Connor McDavid")` and `"D A"` yields
`("D", "A")`. -/
theorem parse_player_name_spec (raw : String) :
    ((FCHL.pySplit (FCHL.pyStrip raw)).length < 2 →
      FCHL.parse_player_name raw = ("", raw)) ∧
    (2 ≤ (FCHL.pySplit (FCHL.pyStrip raw)).length →
      FCHL.parse_player_name raw =
        ((FCHL.pySplit (FCHL.pyStrip raw)).headD "",
         FCHL.joinSpace
           (if FCHL.isSuffixToken ((FCHL.pySplit (FCHL.pyStrip raw)).getLastD "")
               ∧ 1 ≤ (FCHL.pySplit (FCHL.pyStrip raw)).length - 2 then
              ((FCHL.pySplit (FCHL.pyStrip raw)).drop 1).dropLast
            else (FCHL.pySplit (FCHL.pyStrip raw)).drop 1))) ∧
    FCHL.parse_player_name "F Connor McDavid 97" = ("F", "Connor McDavid") ∧
    FCHL.parse_player_name "D A" = ("D", "A") := by
  refine ⟨?_, ?_, by decide, by decide⟩
  · intro h
    unfold FCHL.parse_player_name
    simp [h]
  · intro h
    unfold FCHL.parse_player_name
    rw [if_neg (by omega)]
    have hcond : (FCHL.isSuffixToken ((FCHL.pySplit (FCHL.pyStrip raw)).getLastD "")
        ∧ 1 ≤ (FCHL.pySplit (FCHL.pyStrip raw)).length - 2) ↔
        (FCHL.isSuffixToken ((FCHL.pySplit (FCHL.pyStrip raw)).getLastD "")
          && (FCHL.pySplit (FCHL.pyStrip raw)).length > 2) = true := by
      rw [Bool.and_eq_true, decide_eq_true_eq]
      constructor
      · rintro ⟨h1, h2⟩; exact ⟨h1, by omega⟩
      · rintro ⟨h1, h2⟩; exact ⟨h1, by omega⟩
    exact congrArg
      (fun l => ((FCHL.pySplit (FCHL.pyStrip raw)).headD "", FCHL.joinSpace l))
      (if_congr hcond.symm rfl rfl)
